import Mathlib

/-
Verification of the Interswitch SDK wrapper (amount validation, receipt
composition, transaction references, event-listener discipline, currency
conversion helpers).

The service code runs on JavaScript numbers, i.e. IEEE 754 binary64 values.
Every finite binary64 value is a rational number, so we represent JS numbers
by their exact rational values and model each arithmetic operation as the
exact rational operation followed by correct rounding to the nearest
representable binary64 value (ties to even).  Comparisons on JS numbers are
exact comparisons of the represented rationals.  The rounding function below
covers the normal range of binary64 (no subnormals, no overflow), which
contains every value this codebase manipulates.
-/

namespace InterswitchSDK

/-- Fuel-driven floor of the base-two logarithm of a natural number
(structural recursion so that the kernel can evaluate it). -/
def log2fuel : ℕ → ℕ → ℕ
  | 0, _ => 0
  | f + 1, n => if n < 2 then 0 else log2fuel f (n / 2) + 1

/-- Floor of the base-two logarithm of a natural number; 200 bits of fuel is
enough for every quantity appearing in this development. -/
def nlog2 (n : ℕ) : ℕ := log2fuel 200 n

/-- Test whether the fraction n / d lies strictly below 2 ^ e, stated on
integers so that the kernel can evaluate it. -/
def ltPow2 (n d : ℕ) (e : ℤ) : Bool :=
  if 0 ≤ e then decide ((n : ℤ) < (d : ℤ) * 2 ^ e.toNat)
  else decide ((n : ℤ) * 2 ^ (-e).toNat < (d : ℤ))

/-- Floor of the base-two logarithm of the positive fraction n / d. -/
def floorLog2 (n d : ℕ) : ℤ :=
  let e0 : ℤ := (nlog2 n : ℤ) - (nlog2 d : ℤ)
  if ltPow2 n d e0 then e0 - 1 else e0

/-- Round the fraction n / d (with d positive) to the nearest integer, ties
to even: floor division plus a comparison of twice the remainder against the
denominator. -/
def roundHalfEven (n : ℤ) (d : ℕ) : ℤ :=
  let f := n.fdiv (d : ℤ)
  let r := n - f * (d : ℤ)
  if 2 * r < (d : ℤ) then f
  else if (d : ℤ) < 2 * r then f + 1
  else if f % 2 = 0 then f else f + 1

/-- Nearest IEEE 754 binary64 value of a positive rational in the normal
range: with e the floor of its base-two logarithm, round q * 2 ^ (52 - e)
(a fraction in [2 ^ 52, 2 ^ 53)) to the nearest integer, ties to even, and
scale back by 2 ^ (e - 52) — i.e. correct rounding of the 53-bit
significand. -/
def flqPos (q : ℚ) : ℚ :=
  let n := q.num.toNat
  let d := q.den
  let e := floorLog2 n d
  let m := if 0 ≤ 52 - e then roundHalfEven ((n : ℤ) * 2 ^ (52 - e).toNat) d
           else roundHalfEven (n : ℤ) (d * 2 ^ (e - 52).toNat)
  if 0 ≤ e - 52 then mkRat (m * 2 ^ (e - 52).toNat) 1 else mkRat m (2 ^ (52 - e).toNat)

/-- Nearest IEEE 754 binary64 value of a rational whose magnitude is in the
normal range (every JS number handled by this codebase is); 0 maps to 0. -/
def flq (q : ℚ) : ℚ :=
  if q = 0 then 0 else if q < 0 then - flqPos (-q) else flqPos q

/-- Exact product of two rationals built from numerators and denominators;
equal to x * y (`ratMul_eq` below), spelled with `mkRat` so that the kernel
can evaluate it. -/
def ratMul (x y : ℚ) : ℚ := mkRat (x.num * y.num) (x.den * y.den)

/-- JS multiplication of two binary64 values: exact product, correctly
rounded back to binary64. -/
def jsMul (x y : ℚ) : ℚ := flq (ratMul x y)

/-- JS Math.round on a binary64 value: nearest integer, half-way cases
toward positive infinity, i.e. the floor of x + 1/2 (`jsRound_eq` below),
computed by integer division.  At the magnitudes used here the result is
itself exactly representable, so no further rounding occurs. -/
def jsRound (x : ℚ) : ℚ :=
  (((2 * x.num + (x.den : ℤ)) / ((2 * x.den : ℕ) : ℤ) : ℤ) : ℚ)

/-- JavaScript value passed as the amount argument of
`validatePaymentAmount`: `undefined`, `NaN`, or a finite binary64 number
represented by its exact rational value. -/
inductive JSAmount where
  | undef : JSAmount
  | nan : JSAmount
  | num (q : ℚ) : JSAmount
deriving DecidableEq, Repr

/-- Return value of `validatePaymentAmount`: `{ valid, error? }`. -/
structure ValidationResult where
  valid : Bool
  error : Option String
deriving DecidableEq, Repr

namespace InterswitchPOSService

/-- Embedding of `InterswitchPOSService.validatePaymentAmount`
(src/unnamed/part_003 lines 519-542).  The JS guard
`!amount || typeof amount !== 'number'` is truthy for `undefined`, `NaN`
and `0`, so all three take the first branch.  The literal `999999.99` is the
binary64 value nearest to 999999.99, and the precision check
`Math.round(amount * 100) !== amount * 100` is binary64 multiplication
followed by an exact comparison with its rounding. -/
def validatePaymentAmount : JSAmount → ValidationResult
  | JSAmount.undef => ⟨false, some "Amount must be a valid number"⟩
  | JSAmount.nan => ⟨false, some "Amount must be a valid number"⟩
  | JSAmount.num amount =>
    if amount = 0 then ⟨false, some "Amount must be a valid number"⟩
    else if amount ≤ 0 then ⟨false, some "Amount must be greater than zero"⟩
    else if amount < 10 then ⟨false, some "Minimum amount is ₦10"⟩
    else if flq (mkRat 99999999 100) < amount then
      ⟨false, some "Amount exceeds maximum limit (₦999,999.99)"⟩
    else if jsRound (jsMul amount 100) ≠ jsMul amount 100 then
      ⟨false, some "Amount cannot have more than 2 decimal places"⟩
    else ⟨true, none⟩

end InterswitchPOSService

/-- Completion status carried by a `PaymentResult`. -/
inductive TxStatus where
  | completed : TxStatus
  | cancelled : TxStatus
deriving DecidableEq, Repr

/-- Embedding of the `PaymentResult` interface (src/unnamed/part_003 lines
27-48).  String-typed fields keep their JS strings; an empty string is the
falsy "absent" value tested by the receipt composer.  The numeric fields are
binary64 values, represented by their exact rational values. -/
structure PaymentResult where
  responseCode : String
  responseMessage : String
  isSuccessful : Bool
  transactionReference : String
  rrn : String
  amount : ℚ
  cardType : String
  transactionType : String
  cardHolderName : String
  cardExpiry : String
  cardPan : String
  aid : String
  dateTime : String
  txnDate : ℤ
  authorizationCode : String
  stan : String
  authCode : String
  transactionCurrencyType : String
  timestamp : ℤ
  status : TxStatus
deriving DecidableEq, Repr

/-- Embedding of a `PrintItem` (src/unnamed/part_003 lines 50-59), with the
optional display flags defaulting to false when the source omits them.  The
`image` constructor keeps the `imageType` and `resourceName` fields used by
the standard receipt. -/
inductive PrintItem where
  | text (text : String) ( isTitle isBold displayCenter : Bool) : PrintItem
  | newline : PrintItem
  | image (imageType : String) (resourceName : String) : PrintItem
  | separator : PrintItem
deriving DecidableEq, Repr

/-- Merchant info argument of `createStandardReceipt`
(src/unnamed/part_003 lines 274-278): all three fields optional. -/
structure MerchantInfo where
  name : Option String
  address : Option String
  phone : Option String
deriving DecidableEq, Repr

/-- Decimal digits of a natural number. -/
def natDigits (n : ℕ) : String := toString n

/-- Two-digit zero-padded rendering of a remainder below 100. -/
def pad2 (n : ℕ) : String := if n < 10 then "0" ++ natDigits n else natDigits n

/-- Model of `Number.prototype.toFixed(2)`: the integer n for which n / 100
is closest to the value, ties toward positive infinity — the floor of
q * 100 + 1/2, computed by integer division — rendered with two fractional
digits.  No receipt claim inspects these digits. -/
def toFixed2 (q : ℚ) : String :=
  let n : ℤ := (200 * q.num + (q.den : ℤ)) / ((2 * q.den : ℕ) : ℤ)
  (if n < 0 then "-" else "") ++ natDigits (n.natAbs / 100) ++ "." ++ pad2 (n.natAbs % 100)

/-- Digit grouping: insert a comma after every three digits, counting from
the right; the input list is the reversed digit list. -/
def groupRev : List Char → ℕ → List Char
  | [], _ => []
  | c :: cs, k =>
    if k = 2 then c :: (if cs = [] then groupRev cs 0 else ',' :: groupRev cs 0)
    else c :: groupRev cs (k + 1)

/-- Decimal rendering of a natural number with thousands separators. -/
def groupedDigits (n : ℕ) : String :=
  String.mk ((groupRev (natDigits n).toList.reverse 0).reverse)

namespace InterswitchPOSService

/-- Model of `InterswitchPOSService.formatCurrency`
(src/unnamed/part_003 lines 547-554): `Intl.NumberFormat('en-NG', ...)`
renders the amount as a naira sign followed by the grouped integer part and
exactly two fractional digits.  No claim inspects these digits. -/
def formatCurrency (amount : ℚ) : String :=
  let n : ℤ := (200 * amount.num + (amount.den : ℤ)) / ((2 * amount.den : ℕ) : ℤ)
  (if n < 0 then "-" else "") ++ "₦" ++ groupedDigits (n.natAbs / 100) ++ "." ++
    pad2 (n.natAbs % 100)

/-- Merchant header block of `createStandardReceipt`
(src/unnamed/part_003 lines 288-313): each of name, address and phone is
printed only when truthy (present and nonempty). -/
def merchantHeaderItems (merchantInfo : Option MerchantInfo) : List PrintItem :=
  match merchantInfo with
  | none => []
  | some m =>
    (match m.name with
     | some nm => if nm ≠ "" then [PrintItem.text nm true true true] else []
     | none => []) ++
    (match m.address with
     | some ad => if ad ≠ "" then [PrintItem.text ad false false true] else []
     | none => []) ++
    (match m.phone with
     | some ph => if ph ≠ "" then [PrintItem.text ("Tel: " ++ ph) false false true] else []
     | none => [])

/-- Transaction-detail block of `createStandardReceipt`
(src/unnamed/part_003 lines 317-382): title, blank, amount, the conditional
card/transaction lines, the unconditional reference line, and the closing
separator. -/
def receiptDetails (transactionData : PaymentResult) : List PrintItem :=
  [PrintItem.text "PAYMENT RECEIPT" true true true,
   PrintItem.newline,
   PrintItem.text ("Amount: ₦" ++ toFixed2 transactionData.amount) false true false]
  ++ (if transactionData.cardType ≠ "" then
        [PrintItem.text ("Card Type: " ++ transactionData.cardType) false false false] else [])
  ++ (if transactionData.cardPan ≠ "" then
        [PrintItem.text ("PAN: " ++ transactionData.cardPan) false false false] else [])
  ++ (if transactionData.rrn ≠ "" then
        [PrintItem.text ("RRN: " ++ transactionData.rrn) false false false] else [])
  ++ [PrintItem.text ("Reference: " ++ transactionData.transactionReference) false false false]
  ++ (if transactionData.dateTime ≠ "" then
        [PrintItem.text ("Date: " ++ transactionData.dateTime) false false false] else [])
  ++ (if transactionData.authorizationCode ≠ "" then
        [PrintItem.text ("Auth Code: " ++ transactionData.authorizationCode) false false false]
      else [])
  ++ (if transactionData.stan ≠ "" then
        [PrintItem.text ("STAN: " ++ transactionData.stan) false false false] else [])
  ++ [PrintItem.separator]

/-- Footer of `createStandardReceipt` (src/unnamed/part_003 lines 394-409):
two blank lines, the thank-you line, one more blank line, the reminder. -/
def receiptFooterItems : List PrintItem :=
  [PrintItem.newline, PrintItem.newline,
   PrintItem.text "Thank you for your business!" false false true,
   PrintItem.newline,
   PrintItem.text "Keep this receipt for your records" false false true]

/-- Embedding of `InterswitchPOSService.createStandardReceipt`
(src/unnamed/part_003 lines 274-412), written as the concatenation of the
blocks above in exactly the push order of the source: logo image, merchant
header, separator, transaction details, status line, footer.  The function
is total: no input can make composition fail. -/
def createStandardReceipt (transactionData : PaymentResult)
    (merchantInfo : Option MerchantInfo) : List PrintItem :=
  PrintItem.image "resource" "logo" ::
    (merchantHeaderItems merchantInfo ++
      PrintItem.separator ::
        (receiptDetails transactionData ++
          PrintItem.text (if transactionData.isSuccessful then "APPROVED" else "DECLINED")
              true true true ::
            receiptFooterItems))

/-- Embedding of `InterswitchPOSService.createSimpleReceipt`
(src/unnamed/part_003 lines 559-591): a fixed seven-element literal list
with no conditional on the result content other than the status text. -/
def createSimpleReceipt (transactionData : PaymentResult) : List PrintItem :=
  [PrintItem.text "PAYMENT RECEIPT" true true true,
   PrintItem.separator,
   PrintItem.text ("Amount: " ++ formatCurrency transactionData.amount) false true false,
   PrintItem.text ("Reference: " ++ transactionData.transactionReference) false false false,
   PrintItem.text ("Status: " ++ (if transactionData.isSuccessful then "APPROVED" else "DECLINED"))
     false true true,
   PrintItem.separator,
   PrintItem.text "Thank you!" false false true]

/-- Embedding of `InterswitchPOSService.generateTransactionReference`
(src/unnamed/part_003 lines 251-255) with the clock reading (`Date.now()`)
and the drawn random integer (`Math.floor(Math.random() * 1000000)`) made
explicit inputs. -/
def generateTransactionReference (timestamp : ℕ) (randomNum : ℕ) : String :=
  "TXN_" ++ toString timestamp ++ "_" ++ toString randomNum

/-- Model of `Math.floor(Math.random() * 1000000)`: `Math.random()` returns
a value u with 0 ≤ u < 1, and the draw is the floor of u * 1000000. -/
def randomDraw (u : ℚ) : ℤ := ⌊u * 1000000⌋

/-- Embedding of `InterswitchPOSService.nairaToKobo`
(src/unnamed/part_003 lines 260-262), `Math.round(nairaAmount * 100)`, at
exact values (the claim about these converters is about exact values). -/
def nairaToKobo (nairaAmount : ℚ) : ℚ := ((⌊nairaAmount * 100 + 1 / 2⌋ : ℤ) : ℚ)

/-- Embedding of `InterswitchPOSService.koboToNaira`
(src/unnamed/part_003 lines 267-269), `koboAmount / 100`, at exact values. -/
def koboToNaira (koboAmount : ℚ) : ℚ := koboAmount / 100

end InterswitchPOSService

namespace PaymentScreen

/-- Embedding of the payment form screen's own `generateTransactionReference`
(src/unnamed/part_001 lines 68-72); its body is character for character the
same as the service's. -/
def generateTransactionReference (timestamp : ℕ) (randomNum : ℕ) : String :=
  "TXN_" ++ toString timestamp ++ "_" ++ toString randomNum

end PaymentScreen

/-- Event channels republished by the service
(src/unnamed/part_003 lines 428-466). -/
inductive PosEvent where
  | paymentCompleted : PosEvent
  | paymentCancelled : PosEvent
  | printCompleted : PosEvent
  | printError : PosEvent
deriving DecidableEq, Repr

/-- An `EmitterSubscription` handed back by
`NativeEventEmitter.addListener`: the event it is registered for plus a
distinguishing identity (fresh per registration). -/
structure EmitterSubscription where
  event : PosEvent
  id : ℕ
deriving DecidableEq, Repr

/-- Which of the four optional callbacks the caller passed to
`addEventListeners` (src/unnamed/part_003 lines 417-422). -/
structure CallbackSet where
  onPaymentCompleted : Bool
  onPaymentCancelled : Bool
  onPrintCompleted : Bool
  onPrintError : Bool
deriving DecidableEq, Repr

/-- State of the service's listener management: the subscriptions currently
registered with the native event emitter, a fresh-id counter, and the four
listener fields of `InterswitchPOSService`
(src/unnamed/part_003 lines 90-93). -/
structure ServiceState where
  emitterActive : List EmitterSubscription
  nextId : ℕ
  paymentCompletedListener : Option EmitterSubscription
  paymentCancelledListener : Option EmitterSubscription
  printCompletedListener : Option EmitterSubscription
  printErrorListener : Option EmitterSubscription
deriving DecidableEq, Repr

/-- Initial state of the freshly constructed service: no subscriptions, all
four listener fields null. -/
def initialState : ServiceState := ⟨[], 0, none, none, none, none⟩

/-- Effect of `subscription.remove()` on the emitter's registry: deregister
that subscription; a null listener field removes nothing. -/
def removeSub (l : List EmitterSubscription) : Option EmitterSubscription →
    List EmitterSubscription
  | none => l
  | some sub => l.filter (fun x => x != sub)

namespace InterswitchPOSService

/-- Embedding of `InterswitchPOSService.removeEventListeners`
(src/unnamed/part_003 lines 472-494): the four blocks in source order, each
calling `.remove()` when its field is non-null and then nulling the field. -/
def removeEventListeners (s : ServiceState) : ServiceState :=
  { emitterActive :=
      removeSub (removeSub (removeSub
        (removeSub s.emitterActive s.paymentCompletedListener)
        s.paymentCancelledListener) s.printCompletedListener) s.printErrorListener
    nextId := s.nextId
    paymentCompletedListener := none
    paymentCancelledListener := none
    printCompletedListener := none
    printErrorListener := none }

/-- Embedding of `InterswitchPOSService.addEventListeners`
(src/unnamed/part_003 lines 417-467): first `removeEventListeners`, then one
`eventEmitter.addListener` per provided callback, in source order, each
returning a fresh subscription stored in the matching field. -/
def addEventListeners (callbacks : CallbackSet) (s : ServiceState) : ServiceState :=
  let s0 := removeEventListeners s
  let s1 :=
    if callbacks.onPaymentCompleted then
      { s0 with
        emitterActive := s0.emitterActive ++ [⟨PosEvent.paymentCompleted, s0.nextId⟩]
        nextId := s0.nextId + 1
        paymentCompletedListener := some ⟨PosEvent.paymentCompleted, s0.nextId⟩ }
    else s0
  let s2 :=
    if callbacks.onPaymentCancelled then
      { s1 with
        emitterActive := s1.emitterActive ++ [⟨PosEvent.paymentCancelled, s1.nextId⟩]
        nextId := s1.nextId + 1
        paymentCancelledListener := some ⟨PosEvent.paymentCancelled, s1.nextId⟩ }
    else s1
  let s3 :=
    if callbacks.onPrintCompleted then
      { s2 with
        emitterActive := s2.emitterActive ++ [⟨PosEvent.printCompleted, s2.nextId⟩]
        nextId := s2.nextId + 1
        printCompletedListener := some ⟨PosEvent.printCompleted, s2.nextId⟩ }
    else s2
  if callbacks.onPrintError then
    { s3 with
      emitterActive := s3.emitterActive ++ [⟨PosEvent.printError, s3.nextId⟩]
      nextId := s3.nextId + 1
      printErrorListener := some ⟨PosEvent.printError, s3.nextId⟩ }
  else s3

end InterswitchPOSService

/-- One externally observable call into the listener API. -/
inductive ServiceOp where
  | add (callbacks : CallbackSet) : ServiceOp
  | remove : ServiceOp
deriving DecidableEq, Repr

/-- Apply one listener-API call to the state. -/
def applyOp (op : ServiceOp) (s : ServiceState) : ServiceState :=
  match op with
  | ServiceOp.add callbacks => InterswitchPOSService.addEventListeners callbacks s
  | ServiceOp.remove => InterswitchPOSService.removeEventListeners s

/-- State after an arbitrary sequence of `addEventListeners` and
`removeEventListeners` calls, starting from the freshly built service. -/
def runOps (ops : List ServiceOp) : ServiceState :=
  ops.foldl (fun s op => applyOp op s) initialState

/-- Number of subscriptions for one event currently registered with the
emitter. -/
def countEv (e : PosEvent) (s : ServiceState) : ℕ :=
  (s.emitterActive.filter (fun sub => sub.event == e)).length

/-- All four listener fields of the service are null. -/
def slotsAllNone (s : ServiceState) : Prop :=
  s.paymentCompletedListener = none ∧ s.paymentCancelledListener = none ∧
    s.printCompletedListener = none ∧ s.printErrorListener = none

/-- Service state with no subscriptions registered, all four listener fields
null, and fresh-id counter n. -/
def cleared (n : ℕ) : ServiceState := ⟨[], n, none, none, none, none⟩

/-- Canonical form of the states the listener API can reach: either a
cleared state, or the result of one `addEventListeners` call on a cleared
state (every `addEventListeners` call begins by clearing). -/
def Reachable (s : ServiceState) : Prop :=
  (∃ n, s = cleared n) ∨
    (∃ callbacks n, s = InterswitchPOSService.addEventListeners callbacks (cleared n))

/-- Fully populated sample `PaymentResult` used as the concrete input for
counterexamples and witnesses. -/
def sampleResult : PaymentResult :=
  { responseCode := "00"
    responseMessage := "Approved"
    isSuccessful := true
    transactionReference := "TXN_1700000000000_123456"
    rrn := "000000123456"
    amount := 250
    cardType := "VISA"
    transactionType := "Purchase"
    cardHolderName := "JOHN DOE"
    cardExpiry := "12/30"
    cardPan := "506099xxxxxx1234"
    aid := "A0000000031010"
    dateTime := "2024-01-01 10:00:00"
    txnDate := 1700000000
    authorizationCode := "123ABC"
    stan := "000001"
    authCode := "123ABC"
    transactionCurrencyType := "NGN"
    timestamp := 1700000000000
    status := TxStatus.completed }

/-- Number of populated optional card/transaction fields of a result: the
six conditional lines of `createStandardReceipt`. -/
def optionalCount (t : PaymentResult) : ℕ :=
  (if t.cardType ≠ "" then 1 else 0) + (if t.cardPan ≠ "" then 1 else 0) +
    (if t.rrn ≠ "" then 1 else 0) + (if t.dateTime ≠ "" then 1 else 0) +
    (if t.authorizationCode ≠ "" then 1 else 0) + (if t.stan ≠ "" then 1 else 0)

/-- Fully populated sample merchant info. -/
def sampleMerchant : MerchantInfo :=
  { name := some "Demo Store"
    address := some "12 Demo Road"
    phone := some "08000000000" }


/-- The integer-division form used by `jsRound`, `toFixed2` and
`formatCurrency` is the floor of the fraction plus one half: for positive d,
(2n + d) div (2d) = the floor of n/d + 1/2. -/
theorem intFracRoundHalfUp (n : ℤ) (d : ℕ) (hd : d ≠ 0) :
    ((2 * n + (d : ℤ)) / ((2 * d : ℕ) : ℤ)) = ⌊mkRat n d + 1 / 2⌋ := by
  have hdq : (d : ℚ) ≠ 0 := Nat.cast_ne_zero.2 hd
  have h1 : mkRat n d + 1 / 2 = ((2 * n + (d : ℤ) : ℤ) : ℚ) / ((2 * d : ℕ) : ℚ) := by
    rw [Rat.mkRat_eq_div]
    push_cast
    field_simp
    ring
  rw [h1, Rat.floor_intCast_div_natCast]

/-- `ratMul` is exact rational multiplication. -/
theorem ratMul_eq (x y : ℚ) : ratMul x y = x * y := by
  rw [ratMul, Rat.mkRat_eq_div]
  push_cast
  rw [← div_mul_div_comm, Rat.num_div_den, Rat.num_div_den]

/-- `jsRound` computes the floor of its argument plus one half — the
ECMAScript `Math.round` (nearest integer, half-way cases toward positive
infinity). -/
theorem jsRound_eq (x : ℚ) : jsRound x = ((⌊x + 1 / 2⌋ : ℤ) : ℚ) := by
  rw [jsRound, intFracRoundHalfUp x.num x.den x.den_nz, Rat.mkRat_self]

/-
Lemmas about the listener state machine.  `removeEventListeners` puts the
service back into a cleared state, so every reachable state is a cleared
state or one `addEventListeners` step past a cleared state.
-/

/-- Removing listeners from a cleared state is a no-op. -/
theorem remove_cleared (n : ℕ) :
    InterswitchPOSService.removeEventListeners (cleared n) = cleared n := rfl

/-- Removing listeners twice is the same as removing them once: after the
first call all four listener fields are null, so the second call removes
nothing. -/
theorem remove_remove (s : ServiceState) :
    InterswitchPOSService.removeEventListeners
        (InterswitchPOSService.removeEventListeners s) =
      InterswitchPOSService.removeEventListeners s := rfl

/-- After `removeEventListeners` all four listener fields are null. -/
theorem slotsAllNone_remove (s : ServiceState) :
    slotsAllNone (InterswitchPOSService.removeEventListeners s) := ⟨rfl, rfl, rfl, rfl⟩

/-- Removing listeners right after one `addEventListeners` call on a cleared
state deregisters every subscription that call made and nulls all fields. -/
theorem remove_add_cleared (callbacks : CallbackSet) (n : ℕ) :
    InterswitchPOSService.removeEventListeners
        (InterswitchPOSService.addEventListeners callbacks (cleared n)) =
      cleared ((InterswitchPOSService.addEventListeners callbacks (cleared n)).nextId) := by
  obtain ⟨b1, b2, b3, b4⟩ := callbacks
  cases b1 <;> cases b2 <;> cases b3 <;> cases b4 <;>
    simp [InterswitchPOSService.addEventListeners, InterswitchPOSService.removeEventListeners,
      removeSub, cleared, List.filter]

/-- On reachable states, `removeEventListeners` yields the cleared state with
the same fresh-id counter. -/
theorem remove_reachable (s : ServiceState) (h : Reachable s) :
    InterswitchPOSService.removeEventListeners s = cleared s.nextId := by
  rcases h with ⟨n, rfl⟩ | ⟨cbs, n, rfl⟩
  · rfl
  · exact remove_add_cleared cbs n

/-- On reachable states, `addEventListeners` only sees the state through the
initial `removeEventListeners` call, so it acts as it would on the cleared
state with the same counter. -/
theorem add_shift (callbacks : CallbackSet) (s : ServiceState) (h : Reachable s) :
    InterswitchPOSService.addEventListeners callbacks s =
      InterswitchPOSService.addEventListeners callbacks (cleared s.nextId) := by
  have h1 := remove_reachable s h
  simp only [InterswitchPOSService.addEventListeners, h1, remove_cleared]

/-- Every state produced by a sequence of listener-API calls is reachable. -/
theorem reachable_runOps (ops : List ServiceOp) : Reachable (runOps ops) := by
  suffices h : ∀ s, Reachable s → Reachable (ops.foldl (fun s op => applyOp op s) s) from
    h initialState (Or.inl ⟨0, rfl⟩)
  induction ops with
  | nil => exact fun s hs => hs
  | cons op ops ih =>
    intro s hs
    rw [List.foldl_cons]
    apply ih
    cases op with
    | remove => exact Or.inl ⟨s.nextId, remove_reachable s hs⟩
    | add cbs => exact Or.inr ⟨cbs, s.nextId, add_shift cbs s hs⟩

/-- Every subscription registered by one `addEventListeners` call on a
cleared state carries an id at least the counter and below the new
counter. -/
theorem mem_add_cleared_id (callbacks : CallbackSet) (n : ℕ) :
    ∀ sub ∈ (InterswitchPOSService.addEventListeners callbacks (cleared n)).emitterActive,
      n ≤ sub.id ∧
        sub.id < (InterswitchPOSService.addEventListeners callbacks (cleared n)).nextId := by
  obtain ⟨b1, b2, b3, b4⟩ := callbacks
  cases b1 <;> cases b2 <;> cases b3 <;> cases b4 <;>
    simp [InterswitchPOSService.addEventListeners, InterswitchPOSService.removeEventListeners,
      removeSub, cleared, List.forall_mem_cons] <;> omega

/-- On reachable states, every registered subscription id is below the
fresh-id counter. -/
theorem id_lt_of_mem_reachable (s : ServiceState) (h : Reachable s)
    (sub : EmitterSubscription) (hsub : sub ∈ s.emitterActive) : sub.id < s.nextId := by
  rcases h with ⟨n, rfl⟩ | ⟨cbs, n, rfl⟩
  · simp [cleared] at hsub
  · exact (mem_add_cleared_id cbs n sub hsub).2

/-- On reachable states, at most one subscription per event is registered
with the emitter. -/
theorem countEv_le_one_reachable (s : ServiceState) (h : Reachable s) (e : PosEvent) :
    countEv e s ≤ 1 := by
  rcases h with ⟨n, rfl⟩ | ⟨cbs, n, rfl⟩
  · simp [countEv, cleared]
  · obtain ⟨b1, b2, b3, b4⟩ := cbs
    cases e <;> cases b1 <;> cases b2 <;> cases b3 <;> cases b4 <;>
      first
      | exact Nat.le_refl 1
      | exact Nat.zero_le 1

open InterswitchPOSService

/-- C7: after any sequence of `addEventListeners` / `removeEventListeners`
calls, at most one listener per event type is registered with the emitter;
any subscription currently registered is deregistered by the next
`addEventListeners` call (a second registration replaces the first);
`removeEventListeners` is idempotent; and after `removeEventListeners` all
four listener fields are null (so calling it again is a safe no-op). -/
theorem listener_discipline (ops : List ServiceOp) (e : PosEvent)
    (callbacks : CallbackSet) (sub : EmitterSubscription)
    (hsub : sub ∈ (runOps ops).emitterActive) :
    countEv e (runOps ops) ≤ 1
    ∧ sub ∉ (addEventListeners callbacks (runOps ops)).emitterActive
    ∧ removeEventListeners (removeEventListeners (runOps ops)) =
        removeEventListeners (runOps ops)
    ∧ slotsAllNone (removeEventListeners (runOps ops)) := by
  have hreach := reachable_runOps ops
  refine ⟨countEv_le_one_reachable _ hreach e, ?_, remove_remove _, slotsAllNone_remove _⟩
  have hlt : sub.id < (runOps ops).nextId := id_lt_of_mem_reachable _ hreach sub hsub
  rw [add_shift callbacks _ hreach]
  intro hmem
  have hge := (mem_add_cleared_id callbacks (runOps ops).nextId sub hmem).1
  omega

/-- C7 witness: a concrete run that registers all four callbacks; the
subscription stored for the payment-completed event is torn down by a
subsequent registration, and the invariants hold at that state. -/
theorem listener_discipline_witness :
    (⟨PosEvent.paymentCompleted, 0⟩ : EmitterSubscription) ∈
        (runOps [ServiceOp.add ⟨true, true, true, true⟩]).emitterActive
    ∧ (countEv PosEvent.paymentCompleted (runOps [ServiceOp.add ⟨true, true, true, true⟩]) ≤ 1
      ∧ (⟨PosEvent.paymentCompleted, 0⟩ : EmitterSubscription) ∉
          (addEventListeners ⟨true, false, false, false⟩
            (runOps [ServiceOp.add ⟨true, true, true, true⟩])).emitterActive
      ∧ removeEventListeners (removeEventListeners (runOps [ServiceOp.add ⟨true, true, true, true⟩])) =
          removeEventListeners (runOps [ServiceOp.add ⟨true, true, true, true⟩])
      ∧ slotsAllNone (removeEventListeners (runOps [ServiceOp.add ⟨true, true, true, true⟩]))) :=
  ⟨by decide,
    listener_discipline [ServiceOp.add ⟨true, true, true, true⟩] PosEvent.paymentCompleted
      ⟨true, false, false, false⟩ ⟨PosEvent.paymentCompleted, 0⟩ (by decide)⟩

/-- C8: `createSimpleReceipt` always returns exactly the fixed 7-item
sequence title, separator, amount, reference, status, separator, thank-you,
with no conditional on the result content. -/
theorem simpleReceipt_fixed_seven_items (r : PaymentResult) :
    createSimpleReceipt r =
      [PrintItem.text "PAYMENT RECEIPT" true true true,
       PrintItem.separator,
       PrintItem.text ("Amount: " ++ formatCurrency r.amount) false true false,
       PrintItem.text ("Reference: " ++ r.transactionReference) false false false,
       PrintItem.text ("Status: " ++ (if r.isSuccessful then "APPROVED" else "DECLINED"))
         false true true,
       PrintItem.separator,
       PrintItem.text "Thank you!" false false true]
    ∧ (createSimpleReceipt r).length = 7 := ⟨rfl, rfl⟩

/-- C9: with the clock reading and the uniform draw u of `Math.random()`
made explicit, both the service's `generateTransactionReference` and the
payment screen's copy produce exactly
`TXN_<unix-millis-timestamp>_<random-integer>` with the random integer in
0..999999. -/
theorem transactionReference_pattern (timestamp : ℕ) (u : ℚ)
    (h0 : 0 ≤ u) (h1 : u < 1) :
    0 ≤ randomDraw u ∧ randomDraw u ≤ 999999
    ∧ generateTransactionReference timestamp (randomDraw u).toNat =
        "TXN_" ++ toString timestamp ++ "_" ++ toString (randomDraw u).toNat
    ∧ PaymentScreen.generateTransactionReference timestamp (randomDraw u).toNat =
        generateTransactionReference timestamp (randomDraw u).toNat := by
  have h3 : 0 ≤ randomDraw u := Int.floor_nonneg.2 (by nlinarith)
  have h2 : randomDraw u < 1000000 := by
    have hu : u * 1000000 < 1000000 := by nlinarith
    exact Int.floor_lt.2 (by exact_mod_cast hu)
  exact ⟨h3, by omega, rfl, rfl⟩

/-- C9 witness: the pattern at a concrete clock reading and a concrete
uniform draw. -/
theorem transactionReference_pattern_witness :
    (0 : ℚ) ≤ 1 / 2 ∧ (1 / 2 : ℚ) < 1
    ∧ (0 ≤ randomDraw (1 / 2) ∧ randomDraw (1 / 2) ≤ 999999
      ∧ generateTransactionReference 1700000000000 (randomDraw (1 / 2)).toNat =
          "TXN_" ++ toString (1700000000000 : ℕ) ++ "_" ++ toString (randomDraw (1 / 2)).toNat
      ∧ PaymentScreen.generateTransactionReference 1700000000000 (randomDraw (1 / 2)).toNat =
          generateTransactionReference 1700000000000 (randomDraw (1 / 2)).toNat) :=
  ⟨by norm_num, by norm_num,
    transactionReference_pattern 1700000000000 (1 / 2) (by norm_num) (by norm_num)⟩

/-- C10: on exact values the converters are mutually inverse: converting any
integer kobo amount to naira and back yields the same integer, and
converting any naira amount with at most two decimal digits to kobo and
back yields the same amount. -/
theorem naira_kobo_roundtrip (k : ℤ) (a : ℚ) (h : (a * 100).den = 1) :
    nairaToKobo (koboToNaira (k : ℚ)) = (k : ℚ)
    ∧ koboToNaira (nairaToKobo a) = a := by
  constructor
  · unfold nairaToKobo koboToNaira
    have hk : (k : ℚ) / 100 * 100 = (k : ℚ) := by
      field_simp
    rw [hk]
    have hfloor : ⌊(k : ℚ) + 1 / 2⌋ = k := by
      rw [Int.floor_int_add]
      norm_num
    rw [hfloor]
  · unfold nairaToKobo koboToNaira
    have ha : (((a * 100).num : ℚ)) = a * 100 := by
      have hd := Rat.num_div_den (a * 100)
      rw [h] at hd
      simpa using hd
    rw [← ha]
    have hfloor : ⌊((a * 100).num : ℚ) + 1 / 2⌋ = (a * 100).num := by
      rw [Int.floor_int_add]
      norm_num
    rw [hfloor, ha]
    field_simp

/-- C10 witness: the round trips at a concrete kobo amount and a concrete
two-decimal naira amount. -/
theorem naira_kobo_roundtrip_witness :
    ((1999 / 100 : ℚ) * 100).den = 1
    ∧ (nairaToKobo (koboToNaira ((25050 : ℤ) : ℚ)) = ((25050 : ℤ) : ℚ)
      ∧ koboToNaira (nairaToKobo (1999 / 100)) = (1999 / 100 : ℚ)) :=
  ⟨by rw [show ((1999 : ℚ) / 100 * 100) = 1999 from by norm_num]; simp,
    naira_kobo_roundtrip 25050 (1999 / 100)
      (by rw [show ((1999 : ℚ) / 100 * 100) = 1999 from by norm_num]; simp)⟩

/-- C1 (code-bug evidence): 19.99 has exactly two decimal digits
(19.99 × 100 is exactly the integer 1999) and lies within [10, 999999.99],
yet the validator rejects the binary64 value of 19.99 with the precision
reason, because in binary64 arithmetic 19.99 × 100 evaluates to
1998.9999999999998, which is not equal to its rounding.  The two boundary
rejections stated by the spec do hold. -/
theorem validate_rejects_exact_two_decimals :
    mkRat 1999 100 * 100 = (1999 : ℚ)
    ∧ (10 : ℚ) ≤ mkRat 1999 100 ∧ (mkRat 1999 100 : ℚ) ≤ mkRat 99999999 100
    ∧ validatePaymentAmount (JSAmount.num (flq (mkRat 1999 100))) =
        ⟨false, some "Amount cannot have more than 2 decimal places"⟩
    ∧ validatePaymentAmount (JSAmount.num (flq (mkRat 999 100))) =
        ⟨false, some "Minimum amount is ₦10"⟩
    ∧ validatePaymentAmount (JSAmount.num (flq 1000000)) =
        ⟨false, some "Amount exceeds maximum limit (₦999,999.99)"⟩ := by
  refine ⟨?_, by decide, by decide, by decide, by decide, by decide⟩
  rw [Rat.mkRat_eq_div]
  norm_num

/-- C2 (code-bug evidence): the scaled precision comparison in the code is
binary64 equality, not a tolerance-free integer comparison: 10.05 has
exactly two decimal digits (10.05 × 100 is exactly the integer 1005) and is
within range, yet Math.round(10.05 × 100) differs from 10.05 × 100 in
binary64, so the validator falsely rejects it with the precision reason. -/
theorem precision_check_float_artifact :
    mkRat 201 20 * 100 = (1005 : ℚ)
    ∧ (10 : ℚ) ≤ mkRat 201 20 ∧ (mkRat 201 20 : ℚ) ≤ mkRat 99999999 100
    ∧ jsRound (jsMul (flq (mkRat 201 20)) 100) ≠ jsMul (flq (mkRat 201 20)) 100
    ∧ validatePaymentAmount (JSAmount.num (flq (mkRat 201 20))) =
        ⟨false, some "Amount cannot have more than 2 decimal places"⟩ := by
  refine ⟨?_, by decide, by decide, by decide, by decide⟩
  rw [Rat.mkRat_eq_div]
  norm_num

/-- C3 counterexample: at amount 0 the claim's designated reason is wrong:
the JS guard `!amount` is truthy for 0, so the validator reports "must be a
valid number" there, not "must be greater than zero". -/
theorem validate_zero_reason_counterexample :
    validatePaymentAmount (JSAmount.num 0) = ⟨false, some "Amount must be a valid number"⟩
    ∧ validatePaymentAmount (JSAmount.num 0) ≠
        ⟨false, some "Amount must be greater than zero"⟩ := by
  exact ⟨rfl, by decide⟩

/-- C3 as amended: undefined, NaN and 0 all fail with the "must be a valid
number" reason (the falsy/typeof guard), and every strictly negative amount
fails with the "must be greater than zero" reason. -/
theorem validate_bad_input_reasons (a : ℚ) (h : a < 0) :
    validatePaymentAmount JSAmount.undef = ⟨false, some "Amount must be a valid number"⟩
    ∧ validatePaymentAmount JSAmount.nan = ⟨false, some "Amount must be a valid number"⟩
    ∧ validatePaymentAmount (JSAmount.num 0) = ⟨false, some "Amount must be a valid number"⟩
    ∧ validatePaymentAmount (JSAmount.num a) =
        ⟨false, some "Amount must be greater than zero"⟩ := by
  refine ⟨rfl, rfl, rfl, ?_⟩
  simp only [validatePaymentAmount]
  rw [if_neg h.ne, if_pos h.le]

/-- C3 witness: the amended claim at the concrete negative amount -5. -/
theorem validate_bad_input_reasons_witness :
    (-5 : ℚ) < 0
    ∧ (validatePaymentAmount JSAmount.undef = ⟨false, some "Amount must be a valid number"⟩
      ∧ validatePaymentAmount JSAmount.nan = ⟨false, some "Amount must be a valid number"⟩
      ∧ validatePaymentAmount (JSAmount.num 0) = ⟨false, some "Amount must be a valid number"⟩
      ∧ validatePaymentAmount (JSAmount.num (-5)) =
          ⟨false, some "Amount must be greater than zero"⟩) :=
  ⟨by norm_num, validate_bad_input_reasons (-5) (by norm_num)⟩

/-- C5: composing with no merchant info omits the whole merchant header (the
logo is immediately followed by the separator) while the amount, reference,
status and both closing lines are still present; composition is a total
function, and the length is the 13-item skeleton plus one item per populated
optional merchant/card field. -/
theorem standardReceipt_no_merchant_total (r : PaymentResult) (mi : Option MerchantInfo) :
    createStandardReceipt r none =
      PrintItem.image "resource" "logo" :: PrintItem.separator ::
        (receiptDetails r ++
          PrintItem.text (if r.isSuccessful then "APPROVED" else "DECLINED") true true true ::
            receiptFooterItems)
    ∧ PrintItem.text ("Amount: ₦" ++ toFixed2 r.amount) false true false ∈
        createStandardReceipt r none
    ∧ PrintItem.text ("Reference: " ++ r.transactionReference) false false false ∈
        createStandardReceipt r none
    ∧ PrintItem.text (if r.isSuccessful then "APPROVED" else "DECLINED") true true true ∈
        createStandardReceipt r none
    ∧ PrintItem.text "Thank you for your business!" false false true ∈
        createStandardReceipt r none
    ∧ PrintItem.text "Keep this receipt for your records" false false true ∈
        createStandardReceipt r none
    ∧ (createStandardReceipt r mi).length =
        13 + (merchantHeaderItems mi).length + optionalCount r := by
  refine ⟨rfl, ?_, ?_, ?_, ?_, ?_, ?_⟩
  · simp [createStandardReceipt, receiptDetails, merchantHeaderItems]
  · simp [createStandardReceipt, receiptDetails, merchantHeaderItems]
  · simp [createStandardReceipt, receiptDetails, receiptFooterItems, merchantHeaderItems]
  · simp [createStandardReceipt, receiptDetails, receiptFooterItems, merchantHeaderItems]
  · simp [createStandardReceipt, receiptDetails, receiptFooterItems, merchantHeaderItems]
  · simp only [createStandardReceipt, receiptDetails, receiptFooterItems, optionalCount,
      List.length_cons, List.length_append]
    split_ifs <;> simp <;> omega

/-- C6: for every result and merchant info, the receipt is the part before
the status followed by the status line — "APPROVED" when successful,
"DECLINED" otherwise, bold, centered, as a title — and then the fixed
footer. -/
theorem standardReceipt_status_line (r : PaymentResult) (mi : Option MerchantInfo) :
    createStandardReceipt r mi =
      (PrintItem.image "resource" "logo" ::
        (merchantHeaderItems mi ++ PrintItem.separator :: receiptDetails r))
      ++ PrintItem.text (if r.isSuccessful then "APPROVED" else "DECLINED") true true true ::
          receiptFooterItems := by
  simp [createStandardReceipt, List.cons_append, List.append_assoc]

/-- C4 counterexample: on a fully populated result the receipt has 22 items,
not 21: after the two blank lines that follow the status, the thank-you line
is followed by one more blank line before the reminder line, so the two
closing message lines are not adjacent and the claimed enumeration (which
ends ...status; two blank lines; thank-you; reminder) does not match. -/
theorem standardReceipt_closing_lines_counterexample :
    (createStandardReceipt sampleResult (some sampleMerchant)).length = 22
    ∧ (createStandardReceipt sampleResult (some sampleMerchant))[19]? =
        some (PrintItem.text "Thank you for your business!" false false true)
    ∧ (createStandardReceipt sampleResult (some sampleMerchant))[20]? = some PrintItem.newline
    ∧ (createStandardReceipt sampleResult (some sampleMerchant))[21]? =
        some (PrintItem.text "Keep this receipt for your records" false false true) := by
  refine ⟨by decide, by decide, by decide, by decide⟩

/-- C4 as amended: with full merchant info and every optional field
populated the receipt is exactly the 22-item sequence logo, merchant name,
address, phone, separator, title, blank, amount, card type, PAN, RRN,
reference, date, auth code, STAN, separator, status, blank, blank,
thank-you, blank, reminder — the 13-item fixed skeleton (including the blank
between the two closing lines) plus one item for each of the 9 populated
optional fields. -/
theorem standardReceipt_full_order (r : PaymentResult) (nm ad ph : String)
    (h1 : nm ≠ "") (h2 : ad ≠ "") (h3 : ph ≠ "")
    (h4 : r.cardType ≠ "") (h5 : r.cardPan ≠ "") (h6 : r.rrn ≠ "")
    (h7 : r.dateTime ≠ "") (h8 : r.authorizationCode ≠ "") (h9 : r.stan ≠ "") :
    createStandardReceipt r (some ⟨some nm, some ad, some ph⟩) =
      [PrintItem.image "resource" "logo",
       PrintItem.text nm true true true,
       PrintItem.text ad false false true,
       PrintItem.text ("Tel: " ++ ph) false false true,
       PrintItem.separator,
       PrintItem.text "PAYMENT RECEIPT" true true true,
       PrintItem.newline,
       PrintItem.text ("Amount: ₦" ++ toFixed2 r.amount) false true false,
       PrintItem.text ("Card Type: " ++ r.cardType) false false false,
       PrintItem.text ("PAN: " ++ r.cardPan) false false false,
       PrintItem.text ("RRN: " ++ r.rrn) false false false,
       PrintItem.text ("Reference: " ++ r.transactionReference) false false false,
       PrintItem.text ("Date: " ++ r.dateTime) false false false,
       PrintItem.text ("Auth Code: " ++ r.authorizationCode) false false false,
       PrintItem.text ("STAN: " ++ r.stan) false false false,
       PrintItem.separator,
       PrintItem.text (if r.isSuccessful then "APPROVED" else "DECLINED") true true true,
       PrintItem.newline, PrintItem.newline,
       PrintItem.text "Thank you for your business!" false false true,
       PrintItem.newline,
       PrintItem.text "Keep this receipt for your records" false false true]
    ∧ (createStandardReceipt r (some ⟨some nm, some ad, some ph⟩)).length = 13 + 9 := by
  have key : createStandardReceipt r (some ⟨some nm, some ad, some ph⟩) =
      [PrintItem.image "resource" "logo",
       PrintItem.text nm true true true,
       PrintItem.text ad false false true,
       PrintItem.text ("Tel: " ++ ph) false false true,
       PrintItem.separator,
       PrintItem.text "PAYMENT RECEIPT" true true true,
       PrintItem.newline,
       PrintItem.text ("Amount: ₦" ++ toFixed2 r.amount) false true false,
       PrintItem.text ("Card Type: " ++ r.cardType) false false false,
       PrintItem.text ("PAN: " ++ r.cardPan) false false false,
       PrintItem.text ("RRN: " ++ r.rrn) false false false,
       PrintItem.text ("Reference: " ++ r.transactionReference) false false false,
       PrintItem.text ("Date: " ++ r.dateTime) false false false,
       PrintItem.text ("Auth Code: " ++ r.authorizationCode) false false false,
       PrintItem.text ("STAN: " ++ r.stan) false false false,
       PrintItem.separator,
       PrintItem.text (if r.isSuccessful then "APPROVED" else "DECLINED") true true true,
       PrintItem.newline, PrintItem.newline,
       PrintItem.text "Thank you for your business!" false false true,
       PrintItem.newline,
       PrintItem.text "Keep this receipt for your records" false false true] := by
    simp [createStandardReceipt, merchantHeaderItems, receiptDetails, receiptFooterItems,
      h1, h2, h3, h4, h5, h6, h7, h8, h9]
  exact ⟨key, by rw [key]; rfl⟩

/-- C4 witness: the amended order at the fully populated sample result and
sample merchant info. -/
theorem standardReceipt_full_order_witness :
    sampleResult.cardType ≠ "" ∧ sampleResult.cardPan ≠ "" ∧ sampleResult.rrn ≠ ""
    ∧ sampleResult.dateTime ≠ "" ∧ sampleResult.authorizationCode ≠ ""
    ∧ sampleResult.stan ≠ ""
    ∧ (createStandardReceipt sampleResult
          (some ⟨some "Demo Store", some "12 Demo Road", some "08000000000"⟩) =
        [PrintItem.image "resource" "logo",
         PrintItem.text "Demo Store" true true true,
         PrintItem.text "12 Demo Road" false false true,
         PrintItem.text ("Tel: " ++ "08000000000") false false true,
         PrintItem.separator,
         PrintItem.text "PAYMENT RECEIPT" true true true,
         PrintItem.newline,
         PrintItem.text ("Amount: ₦" ++ toFixed2 sampleResult.amount) false true false,
         PrintItem.text ("Card Type: " ++ sampleResult.cardType) false false false,
         PrintItem.text ("PAN: " ++ sampleResult.cardPan) false false false,
         PrintItem.text ("RRN: " ++ sampleResult.rrn) false false false,
         PrintItem.text ("Reference: " ++ sampleResult.transactionReference) false false false,
         PrintItem.text ("Date: " ++ sampleResult.dateTime) false false false,
         PrintItem.text ("Auth Code: " ++ sampleResult.authorizationCode) false false false,
         PrintItem.text ("STAN: " ++ sampleResult.stan) false false false,
         PrintItem.separator,
         PrintItem.text (if sampleResult.isSuccessful then "APPROVED" else "DECLINED")
           true true true,
         PrintItem.newline, PrintItem.newline,
         PrintItem.text "Thank you for your business!" false false true,
         PrintItem.newline,
         PrintItem.text "Keep this receipt for your records" false false true]
      ∧ (createStandardReceipt sampleResult
          (some ⟨some "Demo Store", some "12 Demo Road", some "08000000000"⟩)).length =
          13 + 9) :=
  ⟨by decide, by decide, by decide, by decide, by decide, by decide,
    standardReceipt_full_order sampleResult "Demo Store" "12 Demo Road" "08000000000"
      (by decide) (by decide) (by decide) (by decide) (by decide) (by decide)
      (by decide) (by decide) (by decide)⟩
